import Mathlib

/-!
Shallow embedding of the week6-bepp-option-b book API.

The repository ships a starter (`starter/controllers/bookControllers.js` with
placeholder handlers, `routes/bookRouter.js` without auth, `app.js`) and a
README whose fenced code blocks contain the completed implementation built up
in iterations 1-7: the solution book controllers, the user model and
controllers (signup/login, `generateToken`), the `requireAuth` middleware and
the step-7 protected router.  Both layers are embedded below: the completed
implementation (top level) and the shipped placeholder layer (`Starter`).

Modelling conventions: machine time is `Nat` seconds; a bcrypt digest is a
`Digest` carrying its salt and the salted image; a JWT on the wire is a `Wire`
value, either a structurally decodable `SignedToken` (whose `sig` field
records the signing secret) or undecodable `raw` text; the Mongo collection is
a `Db` holding the insertion-ordered list of books plus a `failing` flag that
makes every store call raise (modelling the driver error caught by the
controllers' `try/catch`).
-/

namespace BookApi

structure Availability where
  isAvailable : Bool
  dueDate : Option Nat
  borrower : Option String
  deriving DecidableEq

structure Book where
  _id : String
  title : String
  author : String
  isbn : String
  publisher : String
  genre : String
  availability : Availability
  user_id : String
  createdAt : Nat
  updatedAt : Nat
  deriving DecidableEq

/-- Digest produced by bcrypt: the embedded salt plus the salted one-way
image of the plaintext.  `bcryptHash`/`bcryptCompare` model
`bcrypt.hash(password, salt)` and `bcrypt.compare(password, digest)`. -/
structure Digest where
  salt : String
  image : String
  deriving DecidableEq

def bcryptHash (password salt : String) : Digest :=
  ⟨salt, salt ++ password⟩

def bcryptCompare (password : String) (d : Digest) : Bool :=
  d.image == d.salt ++ password

structure User where
  _id : String
  name : String
  email : String
  password : Digest
  phone_number : String
  gender : String
  date_of_birth : String
  membership_status : String
  createdAt : Nat
  updatedAt : Nat
  deriving DecidableEq

/-- Compact signed token as produced by `jwt.sign({ _id }, secret,
{ expiresIn: "3d" })`: the embedded payload `_id`, the absolute expiry
timestamp, and the secret the signature was made with. -/
structure SignedToken where
  _id : String
  exp : Nat
  sig : String
  deriving DecidableEq

/-- One space-separated part of an Authorization header value: either a
well-formed encoding of a signed token or undecodable text (such as the
scheme word itself, or a corrupted token). -/
inductive Wire where
  | tok : SignedToken → Wire
  | raw : String → Wire
  deriving DecidableEq

inductive JwtError where
  | malformed : JwtError
  | badSignature : JwtError
  | expired : JwtError
  deriving DecidableEq

def threeDaysSeconds : Nat := 3 * 24 * 60 * 60

/-- Embedding of `generateToken = (_id) => jwt.sign({ _id }, process.env.SECRET,
{ expiresIn: "3d" })` (README, userControllers.js). -/
def generateToken (_id : String) (secret : String) (now : Nat) : SignedToken :=
  ⟨_id, now + threeDaysSeconds, secret⟩

/-- Embedding of `jwt.verify(token, secret)` at clock time `now`: fails on an
undecodable (or absent) token, a signature made with a different secret, or
an expiry at or before `now`; otherwise yields the embedded `_id`. -/
def jwtVerify : Option Wire → String → Nat → Except JwtError String
  | none, _, _ => .error .malformed
  | some (.raw _), _, _ => .error .malformed
  | some (.tok t), secret, now =>
    if t.sig ≠ secret then .error .badSignature
    else if t.exp ≤ now then .error .expired
    else .ok t._id

inductive ResBody where
  | text : String → ResBody
  | jsonError : String → ResBody
  | jsonMessage : String → ResBody
  | jsonBook : Book → ResBody
  | jsonBooks : List Book → ResBody
  | jsonEmailToken : String → SignedToken → ResBody
  | empty : ResBody
  deriving DecidableEq

structure Response where
  status : Nat
  body : ResBody
  deriving DecidableEq

/-- Catalog store: insertion-ordered book collection plus a flag making every
store call fail (the driver error path of each controller's `try/catch`). -/
structure Db where
  books : List Book
  failing : Bool
  deriving DecidableEq

def isHexDigit (c : Char) : Bool :=
  c.isDigit || (('a' ≤ c) && (c ≤ 'f')) || (('A' ≤ c) && (c ≤ 'F'))

namespace ObjectId

/-- Embedding of `mongoose.Types.ObjectId.isValid` on strings: a 24-character
hex string, or any 12-character string (12 bytes). -/
def isValid (s : String) : Bool :=
  (s.length == 24 && s.toList.all isHexDigit) || s.length == 12

end ObjectId

/-- Replace the first list element satisfying `p` by its image under `f`,
as `findOneAndUpdate` rewrites the single matched document. -/
def replaceFirst (p : α → Bool) (f : α → α) : List α → List α
  | [] => []
  | x :: xs => if p x then f x :: xs else x :: replaceFirst p f xs

/-- Fields a client may supply for a book: the content fields of the Book
model (a JSON body with absent nested optional fields maps to `none` inside
`availability`), plus an optional spoofed `user_id` key. -/
structure BookPayload where
  title : String
  author : String
  isbn : String
  publisher : String
  genre : String
  availability : Availability
  user_id : Option String
  deriving DecidableEq

/-- Effect of `findOneAndUpdate({ _id }, { ...req.body }, { returnDocument:
"after" })` on the matched document: every top-level key present in the
payload is overwritten wholesale (the nested `availability` object is
replaced as a unit, never merged), `_id` and `createdAt` are kept, and the
automatic timestamp refreshes `updatedAt`. -/
def applyUpdate (b : Book) (p : BookPayload) (now : Nat) : Book :=
  { _id := b._id, title := p.title, author := p.author, isbn := p.isbn,
    publisher := p.publisher, genre := p.genre, availability := p.availability,
    user_id := p.user_id.getD b.user_id, createdAt := b.createdAt,
    updatedAt := now }

/-- Document built by `new Book({ ...req.body, user_id })` in the step-7
`createBook`: the payload's content fields with the `user_id` key written
last, so a payload-supplied `user_id` is overwritten by the verified one. -/
def mkCreatedBook (user_id : String) (p : BookPayload) (newId : String) (now : Nat) : Book :=
  { _id := newId, title := p.title, author := p.author, isbn := p.isbn,
    publisher := p.publisher, genre := p.genre, availability := p.availability,
    user_id := user_id, createdAt := now, updatedAt := now }

/-- Comparison used by `.sort({ createdAt: -1 })`: newer (larger `createdAt`)
documents come first. -/
def createdAtDesc (a b : Book) : Bool :=
  decide (b.createdAt ≤ a.createdAt)

/-- Result order of `Book.find({}).sort({ createdAt: -1 })` on the stored
collection, as a stable sort by descending creation timestamp. -/
def sortByCreatedAtDesc (books : List Book) : List Book :=
  List.mergeSort books createdAtDesc

/-- Embedding of the solution `getAllBooks` (README iteration 2):
`Book.find({}).sort({ createdAt: -1 })` then 200, or 500 on a store error. -/
def getAllBooks (db : Db) : Response :=
  if db.failing then ⟨500, .jsonMessage "Failed to retrieve books"⟩
  else ⟨200, .jsonBooks (sortByCreatedAtDesc db.books)⟩

/-- Embedding of the solution `getBookById` (README iteration 4). -/
def getBookById (bookId : String) (db : Db) : Response :=
  if !(ObjectId.isValid bookId) then ⟨400, .jsonMessage "Invalid book ID"⟩
  else if db.failing then ⟨500, .jsonMessage "Failed to retrieve book"⟩
  else match db.books.find? (fun x => x._id == bookId) with
    | some b => ⟨200, .jsonBook b⟩
    | none => ⟨404, .jsonMessage "Book not found"⟩

/-- Embedding of the solution `deleteBook` (README iteration 3):
`findOneAndDelete({ _id: bookId })`, 204 with empty body on success. -/
def deleteBook (bookId : String) (db : Db) : Response × Db :=
  if !(ObjectId.isValid bookId) then (⟨400, .jsonMessage "Invalid book ID"⟩, db)
  else if db.failing then (⟨500, .jsonMessage "Failed to delete book"⟩, db)
  else match db.books.find? (fun x => x._id == bookId) with
    | some _ => (⟨204, .empty⟩, ⟨db.books.eraseP (fun x => x._id == bookId), db.failing⟩)
    | none => (⟨404, .jsonMessage "Book not found"⟩, db)

/-- Embedding of the solution `updateBook` (README iteration 5):
`findOneAndUpdate({ _id: bookId }, { ...req.body }, { returnDocument:
"after" })`, returning the post-update document. -/
def updateBook (bookId : String) (p : BookPayload) (db : Db) (now : Nat) : Response × Db :=
  if !(ObjectId.isValid bookId) then (⟨400, .jsonMessage "Invalid book ID"⟩, db)
  else if db.failing then (⟨500, .jsonMessage "Failed to update book"⟩, db)
  else match db.books.find? (fun x => x._id == bookId) with
    | some b =>
      (⟨200, .jsonBook (applyUpdate b p now)⟩,
       ⟨replaceFirst (fun x => x._id == bookId) (fun x => applyUpdate x p now) db.books, db.failing⟩)
    | none => (⟨404, .jsonMessage "Book not found"⟩, db)

/-- Embedding of the step-7 `createBook`: `req.user._id` (a `TypeError`
caught as 500 when `req.user` is null), then `new Book({ ...req.body,
user_id })` saved, 201 with the created document, 500 on a store error. -/
def createBook (user : Option String) (p : BookPayload) (db : Db) (newId : String) (now : Nat) : Response × Db :=
  match user with
  | none => (⟨500, .jsonError "Server Error"⟩, db)
  | some uid =>
    if db.failing then (⟨500, .jsonError "Server Error"⟩, db)
    else
      (⟨201, .jsonBook (mkCreatedBook uid p newId now)⟩,
       ⟨db.books ++ [mkCreatedBook uid p newId now], db.failing⟩)

/-- Truthiness of an optional string request-body field: absent or empty is
falsy, as in the controller's `!name || !email || ...` check. -/
def falsyStr : Option String → Bool
  | none => true
  | some s => s.isEmpty

structure SignupBody where
  name : Option String
  email : Option String
  password : Option String
  phone_number : Option String
  gender : Option String
  date_of_birth : Option String
  membership_status : Option String
  deriving DecidableEq

/-- Guard of the signup validation: true when any of the seven required
request-body fields is absent or empty, mirroring
`!name || !email || !password || !phone_number || !gender || !date_of_birth
|| !membership_status`. -/
def missingSignupField (b : SignupBody) : Bool :=
  falsyStr b.name || falsyStr b.email || falsyStr b.password ||
  falsyStr b.phone_number || falsyStr b.gender ||
  falsyStr b.date_of_birth || falsyStr b.membership_status

/-- User document persisted by `User.create({ name, email, password:
hashedPassword, ... })` in `signupUser`, with timestamps set by the store. -/
def mkSignupUser (b : SignupBody) (salt newId : String) (now : Nat) : User :=
  { _id := newId, name := b.name.getD "", email := b.email.getD "",
    password := bcryptHash (b.password.getD "") salt,
    phone_number := b.phone_number.getD "", gender := b.gender.getD "",
    date_of_birth := b.date_of_birth.getD "",
    membership_status := b.membership_status.getD "",
    createdAt := now, updatedAt := now }

/-- Embedding of `signupUser` (README step 6d).  `salt` is the fresh salt
from `bcrypt.genSalt(10)` and `newId` the store-assigned identifier of the
created user; both come from the environment. -/
def signupUser (b : SignupBody) (users : List User) (salt newId : String) (now : Nat) (secret : String) : Response × List User :=
  if missingSignupField b then
    (⟨400, .jsonError "Please add all fields"⟩, users)
  else if (users.find? (fun u => u.email == b.email.getD "")).isSome then
    (⟨400, .jsonError "User already exists"⟩, users)
  else
    (⟨201, .jsonEmailToken (b.email.getD "") (generateToken newId secret now)⟩,
     users ++ [mkSignupUser b salt newId now])

/-- Embedding of `loginUser` (README step 6d): look the user up by email,
compare the password against the stored digest, and answer 400 "Invalid
credentials" on either a missing user or a failed comparison. -/
def loginUser (email password : String) (users : List User) (secret : String) (now : Nat) : Response :=
  match users.find? (fun u => u.email == email) with
  | some user =>
    if bcryptCompare password user.password then
      ⟨200, .jsonEmailToken email (generateToken user._id secret now)⟩
    else ⟨400, .jsonError "Invalid credentials"⟩
  | none => ⟨400, .jsonError "Invalid credentials"⟩

/-- Embedding of the `requireAuth` middleware (README step 7a).  The
`authorization` argument is the header value already split on spaces
(`authorization.split(" ")`), or `none` when the header is absent.  On
success it yields the value stored into `req.user`, namely
`User.findOne({ _id }).select("_id")` — which is null (`none`) when the
embedded identifier resolves to no user, and `next()` is still called. -/
def requireAuth (secret : String) (now : Nat) (users : List User)
    (authorization : Option (List Wire)) : Except Response (Option String) :=
  match authorization with
  | none => .error ⟨401, .jsonError "Authorization token required"⟩
  | some parts =>
    match jwtVerify parts[1]? secret now with
    | .error _ => .error ⟨401, .jsonError "Request is not authorized"⟩
    | .ok uid => .ok ((users.find? (fun u => u._id == uid)).map (fun u => u._id))

/-- A protected route of the step-7 router: `requireAuth` runs first and a
rejection is the response; otherwise the handler runs with `req.user`. -/
def runProtected (secret : String) (now : Nat) (users : List User)
    (authorization : Option (List Wire))
    (handler : Option String → Db → Response × Db) (db : Db) : Response × Db :=
  match requireAuth secret now users authorization with
  | .error r => (r, db)
  | .ok u => handler u db

inductive Method where
  | get : Method
  | post : Method
  | put : Method
  | delete : Method
  deriving DecidableEq

/-- Embedding of the step-7 `bookRouter`: GET `/` and GET `/:bookId` are
public; POST `/`, PUT `/:bookId` and DELETE `/:bookId` sit below
`router.use(requireAuth)`.  `path` is `none` for `/` and `some bookId` for
`/:bookId`; unmatched shapes fall through to the app's 404 middleware. -/
def bookRouterStep7 (secret : String) (now : Nat) (users : List User)
    (m : Method) (path : Option String) (authorization : Option (List Wire))
    (body : BookPayload) (newId : String) (db : Db) : Response × Db :=
  match m, path with
  | .get, none => (getAllBooks db, db)
  | .get, some bookId => (getBookById bookId db, db)
  | .post, none => runProtected secret now users authorization (fun u d => createBook u body d newId now) db
  | .put, some bookId => runProtected secret now users authorization (fun _ d => updateBook bookId body d now) db
  | .delete, some bookId => runProtected secret now users authorization (fun _ d => deleteBook bookId d) db
  | _, _ => (⟨404, .jsonError "unknown endpoint"⟩, db)

structure Request where
  params_bookId : Option String
  authorization : Option (List Wire)
  body : BookPayload
  deriving DecidableEq

namespace Starter

/-- Shipped placeholder `getAllBooks`: `res.send("getAllBooks")`. -/
def getAllBooks (_req : Request) (db : Db) : Response × Db :=
  (⟨200, .text "getAllBooks"⟩, db)

/-- Shipped placeholder `createBook`: `res.send("createBook")`. -/
def createBook (_req : Request) (db : Db) : Response × Db :=
  (⟨200, .text "createBook"⟩, db)

/-- Shipped placeholder `getBookById`: `res.send("getBookById")`. -/
def getBookById (_req : Request) (db : Db) : Response × Db :=
  (⟨200, .text "getBookById"⟩, db)

/-- Shipped placeholder `updateBook`: `res.send("updateBook")`. -/
def updateBook (_req : Request) (db : Db) : Response × Db :=
  (⟨200, .text "updateBook"⟩, db)

/-- Shipped placeholder `deleteBook`: `res.send("deleteBook")`. -/
def deleteBook (_req : Request) (db : Db) : Response × Db :=
  (⟨200, .text "deleteBook"⟩, db)

/-- Shipped `routes/bookRouter.js`: all five routes wired directly to the
placeholder handlers, with no authentication middleware anywhere. -/
def bookRouter (m : Method) (req : Request) (db : Db) : Response × Db :=
  match m, req.params_bookId with
  | .get, none => getAllBooks req db
  | .post, none => createBook req db
  | .get, some _ => getBookById req db
  | .put, some _ => updateBook req db
  | .delete, some _ => deleteBook req db
  | _, _ => (⟨404, .jsonError "unknown endpoint"⟩, db)

end Starter

/-- Sample book payload, as in the README test requests. -/
def payload0 : BookPayload :=
  ⟨"The Great Gatsby", "F. Scott Fitzgerald", "978-0743273565", "Scribner",
   "Fiction", ⟨true, none, some ""⟩, none⟩

/-- Sample stored book, with a 24-hex-character identifier and populated
optional availability fields. -/
def book0 : Book :=
  ⟨"aaaaaaaaaaaaaaaaaaaaaaaa", "Old Title", "Old Author", "old-isbn",
   "Old Publisher", "Old Genre", ⟨true, some 10, some "Bob"⟩, "u1", 3, 3⟩

/-- Sample persisted user whose digest stores the salted image of
`secret123`. -/
def user0 : User :=
  ⟨"u1", "John Doe", "john@example.com", bcryptHash "secret123" "s1",
   "555-123-4567", "Male", "1990-01-15", "Active", 0, 0⟩

/-- Sample complete signup body. -/
def signupBody0 : SignupBody :=
  ⟨some "John Doe", some "john@example.com", some "secret123",
   some "555-123-4567", some "Male", some "1990-01-15", some "Active"⟩

/-- C1: a request to POST /api/books, PUT /api/books/:bookId or DELETE
/api/books/:bookId carrying no Authorization header is answered 401 with
error "Authorization token required", and the handler is never reached: the
gate rejects before any handler runs (first conjunct, for an arbitrary
handler) and the step-7 router leaves the store untouched on all three
protected routes. -/
theorem protected_routes_require_token (secret : String) (now : Nat) (users : List User) :
    (∀ (handler : Option String → Db → Response × Db) (db : Db),
      runProtected secret now users none handler db =
        (⟨401, .jsonError "Authorization token required"⟩, db)) ∧
    (∀ (body : BookPayload) (newId : String) (db : Db),
      bookRouterStep7 secret now users .post none none body newId db =
        (⟨401, .jsonError "Authorization token required"⟩, db)) ∧
    (∀ (bookId : String) (body : BookPayload) (newId : String) (db : Db),
      bookRouterStep7 secret now users .put (some bookId) none body newId db =
        (⟨401, .jsonError "Authorization token required"⟩, db)) ∧
    (∀ (bookId : String) (body : BookPayload) (newId : String) (db : Db),
      bookRouterStep7 secret now users .delete (some bookId) none body newId db =
        (⟨401, .jsonError "Authorization token required"⟩, db)) :=
  ⟨fun _ _ => rfl, fun _ _ _ => rfl, fun _ _ _ _ => rfl, fun _ _ _ _ => rfl⟩

/-- C2: on a reachable store, List answers 200 with the full collection
(the response list is a permutation of the stored one), ordered by creation
timestamp descending; runs of equal timestamps keep their stored relative
order (stability), and the function is deterministic, so the tie order is
fixed within a single query. -/
theorem getAllBooks_ordered (books : List Book) :
    getAllBooks ⟨books, false⟩ = ⟨200, .jsonBooks (sortByCreatedAtDesc books)⟩ ∧
    (sortByCreatedAtDesc books).Perm books ∧
    List.Pairwise (fun a b => b.createdAt ≤ a.createdAt) (sortByCreatedAtDesc books) ∧
    ∀ c : List Book, List.Pairwise (fun a b => a.createdAt = b.createdAt) c →
      c.Sublist books → c.Sublist (sortByCreatedAtDesc books) := by
  have htrans : ∀ a b c : Book, createdAtDesc a b → createdAtDesc b c → createdAtDesc a c := by
    intro a b c hab hbc
    simp only [createdAtDesc, decide_eq_true_eq] at *
    omega
  have htotal : ∀ a b : Book, createdAtDesc a b || createdAtDesc b a := by
    intro a b
    simp only [createdAtDesc, Bool.or_eq_true, decide_eq_true_eq]
    omega
  refine ⟨rfl, List.mergeSort_perm books createdAtDesc, ?_, ?_⟩
  · exact (List.sorted_mergeSort htrans htotal books).imp
      (fun hab => by simpa [createdAtDesc] using hab)
  · intro c hpw hsub
    exact List.sublist_mergeSort htrans htotal
      (hpw.imp (fun h => by simp [createdAtDesc, h])) hsub

/-- Witness for C2: on the singleton store holding `book0`, List answers 200
with the sorted collection, and the singleton tie class keeps its stored
order in the response. -/
theorem getAllBooks_ordered_witness :
    getAllBooks ⟨[book0], false⟩ = ⟨200, .jsonBooks (sortByCreatedAtDesc [book0])⟩ ∧
    [book0].Sublist (sortByCreatedAtDesc [book0]) :=
  ⟨(getAllBooks_ordered [book0]).1,
   (getAllBooks_ordered [book0]).2.2.2 [book0] (by simp) (List.Sublist.refl _)⟩

/-- C3: a Get-by-id, Update or Delete whose path identifier is not a valid
store identifier answers 400 for every store state — including one in which
any store call would fail, which shows the 400 is produced without a store
round trip — and a valid identifier matching no stored book answers 404. -/
theorem id_validation_short_circuits (bookId : String) (p : BookPayload) (now : Nat) :
    (ObjectId.isValid bookId = false →
      ∀ db : Db,
        getBookById bookId db = ⟨400, .jsonMessage "Invalid book ID"⟩ ∧
        updateBook bookId p db now = (⟨400, .jsonMessage "Invalid book ID"⟩, db) ∧
        deleteBook bookId db = (⟨400, .jsonMessage "Invalid book ID"⟩, db)) ∧
    (ObjectId.isValid bookId = true →
      ∀ books : List Book, books.find? (fun x => x._id == bookId) = none →
        getBookById bookId ⟨books, false⟩ = ⟨404, .jsonMessage "Book not found"⟩ ∧
        updateBook bookId p ⟨books, false⟩ now = (⟨404, .jsonMessage "Book not found"⟩, ⟨books, false⟩) ∧
        deleteBook bookId ⟨books, false⟩ = (⟨404, .jsonMessage "Book not found"⟩, ⟨books, false⟩)) := by
  constructor
  · intro hbad db
    refine ⟨?_, ?_, ?_⟩ <;> simp [getBookById, updateBook, deleteBook, hbad]
  · intro hok books hnone
    refine ⟨?_, ?_, ?_⟩ <;> simp [getBookById, updateBook, deleteBook, hok, hnone]

/-- Witness for C3: the malformed identifier "short" is rejected 400 even on
a store whose every call fails, and the well-formed but absent identifier of
`book0` yields 404 on an empty store. -/
theorem id_validation_short_circuits_witness :
    getBookById "short" ⟨[], true⟩ = ⟨400, .jsonMessage "Invalid book ID"⟩ ∧
    getBookById "aaaaaaaaaaaaaaaaaaaaaaaa" ⟨[], false⟩ = ⟨404, .jsonMessage "Book not found"⟩ :=
  ⟨((id_validation_short_circuits "short" payload0 0).1 (by decide) ⟨[], true⟩).1,
   ((id_validation_short_circuits "aaaaaaaaaaaaaaaaaaaaaaaa" payload0 0).2 (by decide) [] (by decide)).1⟩

/-- C4: signup answers 400 "Please add all fields" when a required field is
absent or empty, 400 "User already exists" when a stored user carries the
submitted email, and otherwise persists exactly one new user whose password
field is the bcrypt digest of the submitted password and answers 201 with
the email and a freshly issued token. -/
theorem signupUser_spec (b : SignupBody) (users : List User) (salt newId : String)
    (now : Nat) (secret : String) :
    (missingSignupField b = true →
      signupUser b users salt newId now secret =
        (⟨400, .jsonError "Please add all fields"⟩, users)) ∧
    (missingSignupField b = false →
      (∃ u ∈ users, u.email = b.email.getD "") →
      signupUser b users salt newId now secret =
        (⟨400, .jsonError "User already exists"⟩, users)) ∧
    (missingSignupField b = false →
      (∀ u ∈ users, u.email ≠ b.email.getD "") →
      signupUser b users salt newId now secret =
        (⟨201, .jsonEmailToken (b.email.getD "") (generateToken newId secret now)⟩,
         users ++ [mkSignupUser b salt newId now]) ∧
      (mkSignupUser b salt newId now).password = bcryptHash (b.password.getD "") salt) := by
  refine ⟨fun hmiss => ?_, fun hmiss hdup => ?_, fun hmiss hfresh => ⟨?_, rfl⟩⟩
  · simp [signupUser, hmiss]
  · obtain ⟨u, hu, he⟩ := hdup
    have hsome : (users.find? (fun x => x.email == b.email.getD "")).isSome := by
      rw [List.find?_isSome]
      exact ⟨u, hu, by simpa using he⟩
    simp [signupUser, hmiss, hsome]
  · have hnone : users.find? (fun x => x.email == b.email.getD "") = none := by
      rw [List.find?_eq_none]
      intro u hu
      simpa using hfresh u hu
    simp [signupUser, hmiss, hnone]

/-- Witness for C4: with `signupBody0`, dropping the name yields 400 "Please
add all fields"; against a store already holding `user0` (same email) signup
yields 400 "User already exists"; against an empty store it persists the new
user and answers 201. -/
theorem signupUser_spec_witness :
    signupUser { signupBody0 with name := none } [] "s2" "u2" 7 "k" =
      (⟨400, .jsonError "Please add all fields"⟩, []) ∧
    signupUser signupBody0 [user0] "s2" "u2" 7 "k" =
      (⟨400, .jsonError "User already exists"⟩, [user0]) ∧
    signupUser signupBody0 [] "s2" "u2" 7 "k" =
      (⟨201, .jsonEmailToken "john@example.com" (generateToken "u2" "k" 7)⟩,
       [mkSignupUser signupBody0 "s2" "u2" 7]) :=
  ⟨(signupUser_spec { signupBody0 with name := none } [] "s2" "u2" 7 "k").1 (by decide),
   (signupUser_spec signupBody0 [user0] "s2" "u2" 7 "k").2.1 (by decide) (by decide),
   ((signupUser_spec signupBody0 [] "s2" "u2" 7 "k").2.2 (by decide) (by decide)).1⟩

/-- C5: a login whose email matches no stored user and a login whose email
matches a stored user but whose password fails verification against the
stored digest produce literally the same response, 400 with error "Invalid
credentials", so the two failure causes are indistinguishable. -/
theorem login_failures_indistinguishable (users : List User) (e1 p1 e2 p2 : String)
    (secret : String) (now : Nat) (u : User)
    (h1 : users.find? (fun x => x.email == e1) = none)
    (h2 : users.find? (fun x => x.email == e2) = some u)
    (h3 : bcryptCompare p2 u.password = false) :
    loginUser e1 p1 users secret now = loginUser e2 p2 users secret now ∧
    loginUser e1 p1 users secret now = ⟨400, .jsonError "Invalid credentials"⟩ := by
  constructor <;> simp [loginUser, h1, h2, h3]

/-- Witness for C5: against a store holding only `user0`, a login with an
unknown email and a login with the right email but the wrong password both
answer 400 "Invalid credentials". -/
theorem login_failures_indistinguishable_witness :
    loginUser "nobody@example.com" "whatever" [user0] "k" 7 =
      loginUser "john@example.com" "wrongpassword" [user0] "k" 7 ∧
    loginUser "nobody@example.com" "whatever" [user0] "k" 7 =
      ⟨400, .jsonError "Invalid credentials"⟩ :=
  login_failures_indistinguishable [user0] "nobody@example.com" "whatever"
    "john@example.com" "wrongpassword" "k" 7 user0 (by decide) (by decide) (by decide)

/-- C6 counterexample: with an empty user store, a token that verifies (right
secret, not expired) but embeds an identifier resolving to no user is NOT
rejected with 401 "Request is not authorized": `requireAuth` forwards with a
null `req.user`, and on POST /api/books the handler is reached and answers
500 "Server Error" (from `req.user._id` raising), not 401. -/
theorem requireAuth_unresolved_user_forwards :
    requireAuth "k" 5 [] (some [.raw "Bearer", .tok (generateToken "u1" "k" 0)]) = .ok none ∧
    (bookRouterStep7 "k" 5 [] .post none
      (some [.raw "Bearer", .tok (generateToken "u1" "k" 0)]) payload0 "b1" ⟨[], false⟩).1 =
      ⟨500, .jsonError "Server Error"⟩ ∧
    (bookRouterStep7 "k" 5 [] .post none
      (some [.raw "Bearer", .tok (generateToken "u1" "k" 0)]) payload0 "b1" ⟨[], false⟩).1.status ≠ 401 :=
  ⟨rfl, rfl, by decide⟩

/-- C6 amended: on a present Authorization header, the gate rejects 401 with
error "Request is not authorized" exactly on token-verification failure
(malformed or absent second header part, bad signature, expiry); when
verification succeeds the request is always forwarded, with the request
identity set to the store lookup of the embedded identifier — null, rather
than a 401 rejection, when that identifier resolves to no user. -/
theorem requireAuth_verified_behavior (secret : String) (now : Nat)
    (users : List User) (parts : List Wire) :
    ((∃ e, jwtVerify parts[1]? secret now = .error e) →
      requireAuth secret now users (some parts) =
        .error ⟨401, .jsonError "Request is not authorized"⟩) ∧
    (∀ uid, jwtVerify parts[1]? secret now = .ok uid →
      requireAuth secret now users (some parts) =
        .ok ((users.find? (fun u => u._id == uid)).map (fun u => u._id))) := by
  constructor
  · rintro ⟨e, he⟩
    simp [requireAuth, he]
  · intro uid h
    simp [requireAuth, h]

/-- Witness for the amended C6: an expired token is rejected 401 "Request is
not authorized", and a verifying token embedding `user0`'s identifier is
forwarded with that identity attached. -/
theorem requireAuth_verified_behavior_witness :
    requireAuth "k" 999999999 [user0] (some [.raw "Bearer", .tok (generateToken "u1" "k" 0)]) =
      .error ⟨401, .jsonError "Request is not authorized"⟩ ∧
    requireAuth "k" 5 [user0] (some [.raw "Bearer", .tok (generateToken "u1" "k" 0)]) =
      .ok (some "u1") :=
  ⟨(requireAuth_verified_behavior "k" 999999999 [user0]
      [.raw "Bearer", .tok (generateToken "u1" "k" 0)]).1 ⟨.expired, rfl⟩,
   (requireAuth_verified_behavior "k" 5 [user0]
      [.raw "Bearer", .tok (generateToken "u1" "k" 0)]).2 "u1" rfl⟩

/-- C7: on a reachable store, an authenticated create persists exactly one
new book whose owning-user field is the caller's verified identity —
whatever owner value the payload supplies, including an explicitly spoofed
one — and answers 201 with the created record; and end to end through the
step-7 router, a request carrying a verifying token whose identifier
resolves to a stored user creates a book owned by that caller. -/
theorem createBook_sets_owner (uid : String) (p : BookPayload) (books : List Book)
    (newId : String) (now : Nat) :
    createBook (some uid) p ⟨books, false⟩ newId now =
      (⟨201, .jsonBook (mkCreatedBook uid p newId now)⟩,
       ⟨books ++ [mkCreatedBook uid p newId now], false⟩) ∧
    (mkCreatedBook uid p newId now).user_id = uid ∧
    (∀ spoof : String,
      (mkCreatedBook uid { p with user_id := some spoof } newId now).user_id = uid) ∧
    (∀ (users : List User) (u : User) (secret : String) (tIss : Nat),
      users.find? (fun x => x._id == uid) = some u →
      now < tIss + threeDaysSeconds →
      bookRouterStep7 secret now users .post none
        (some [.raw "Bearer", .tok (generateToken uid secret tIss)]) p newId ⟨books, false⟩ =
        (⟨201, .jsonBook (mkCreatedBook uid p newId now)⟩,
         ⟨books ++ [mkCreatedBook uid p newId now], false⟩)) := by
  refine ⟨rfl, rfl, fun _ => rfl, ?_⟩
  intro users u secret tIss hfind hnow
  have huid : u._id = uid := by simpa using List.find?_some hfind
  have hexp : ¬ (tIss + threeDaysSeconds ≤ now) := by omega
  simp [bookRouterStep7, runProtected, requireAuth, jwtVerify, generateToken,
    hexp, hfind, createBook, huid]

/-- Witness for C7: with `user0` stored and a token it verifies, creating
`payload0` with a spoofed owner field persists a book owned by `user0`. -/
theorem createBook_sets_owner_witness :
    bookRouterStep7 "k" 5 [user0] .post none
      (some [.raw "Bearer", .tok (generateToken "u1" "k" 0)])
      { payload0 with user_id := some "attacker" } "b1" ⟨[], false⟩ =
      (⟨201, .jsonBook (mkCreatedBook "u1" { payload0 with user_id := some "attacker" } "b1" 5)⟩,
       ⟨[mkCreatedBook "u1" { payload0 with user_id := some "attacker" } "b1" 5], false⟩) ∧
    (mkCreatedBook "u1" { payload0 with user_id := some "attacker" } "b1" 5).user_id = "u1" :=
  ⟨(createBook_sets_owner "u1" { payload0 with user_id := some "attacker" } [] "b1" 5).2.2.2
      [user0] user0 "k" 0 (by decide) (by decide),
   (createBook_sets_owner "u1" { payload0 with user_id := some "attacker" } [] "b1" 5).2.1⟩

/-- C8: an update of an existing book is a full replace driven by the
payload: every payload-carried field of the stored record, the nested
availability sub-record included, is overwritten wholesale (so optional
nested fields absent from the payload end up absent, never merged from the
stored record), the identifier is unchanged, and the operation answers 200
with the full record after the replace, which is also what the store then
holds. -/
theorem updateBook_full_replace (bookId : String) (p : BookPayload) (books : List Book)
    (now : Nat) (b : Book)
    (hv : ObjectId.isValid bookId = true)
    (hfind : books.find? (fun x => x._id == bookId) = some b) :
    updateBook bookId p ⟨books, false⟩ now =
      (⟨200, .jsonBook (applyUpdate b p now)⟩,
       ⟨replaceFirst (fun x => x._id == bookId) (fun x => applyUpdate x p now) books, false⟩) ∧
    (applyUpdate b p now).title = p.title ∧
    (applyUpdate b p now).author = p.author ∧
    (applyUpdate b p now).isbn = p.isbn ∧
    (applyUpdate b p now).publisher = p.publisher ∧
    (applyUpdate b p now).genre = p.genre ∧
    (applyUpdate b p now).availability = p.availability ∧
    (applyUpdate b p now).availability.dueDate = p.availability.dueDate ∧
    (applyUpdate b p now).availability.borrower = p.availability.borrower ∧
    (applyUpdate b p now)._id = b._id := by
  refine ⟨?_, rfl, rfl, rfl, rfl, rfl, rfl, rfl, rfl, rfl⟩
  simp [updateBook, hv, hfind]

/-- Witness for C8: updating stored `book0` (whose availability carries a due
date and a borrower) with `payload0` (whose availability has no due date)
answers 200 with a record taking its entire availability from the payload —
the stored due date is gone, not merged — under the unchanged identifier. -/
theorem updateBook_full_replace_witness :
    updateBook "aaaaaaaaaaaaaaaaaaaaaaaa" payload0 ⟨[book0], false⟩ 9 =
      (⟨200, .jsonBook (applyUpdate book0 payload0 9)⟩,
       ⟨replaceFirst (fun x => x._id == "aaaaaaaaaaaaaaaaaaaaaaaa")
          (fun x => applyUpdate x payload0 9) [book0], false⟩) ∧
    (applyUpdate book0 payload0 9).availability.dueDate = none ∧
    (applyUpdate book0 payload0 9)._id = book0._id :=
  ⟨(updateBook_full_replace "aaaaaaaaaaaaaaaaaaaaaaaa" payload0 [book0] 9 book0
      (by decide) (by decide)).1,
   by decide,
   (updateBook_full_replace "aaaaaaaaaaaaaaaaaaaaaaaa" payload0 [book0] 9 book0
      (by decide) (by decide)).2.2.2.2.2.2.2.2.2⟩

/-- C9: the token issued for a user identifier embeds exactly that
identifier, carries an absolute expiry three days after the moment of
issuance, and is signed with the given process-wide secret; verification
with that secret accepts it and yields the same identifier exactly at the
clock times strictly before that expiry. -/
theorem generateToken_spec (uid secret : String) (now : Nat) :
    (generateToken uid secret now)._id = uid ∧
    (generateToken uid secret now).exp = now + threeDaysSeconds ∧
    (generateToken uid secret now).sig = secret ∧
    ∀ t : Nat,
      jwtVerify (some (.tok (generateToken uid secret now))) secret t = .ok uid ↔
        t < now + threeDaysSeconds := by
  refine ⟨rfl, rfl, rfl, fun t => ?_⟩
  by_cases h : now + threeDaysSeconds ≤ t
  · simp only [jwtVerify, generateToken]
    rw [if_neg (by simp), if_pos h]
    constructor
    · intro hcontra
      exact absurd hcontra (by simp)
    · intro hlt
      omega
  · simp only [jwtVerify, generateToken]
    rw [if_neg (by simp), if_neg h]
    constructor
    · intro _
      omega
    · intro _
      rfl

/-- Witness for C9: the token issued at time 100 for user `u` verifies at
time 200 yielding `u`, since 200 is before the expiry 100 + 259200. -/
theorem generateToken_spec_witness :
    jwtVerify (some (.tok (generateToken "u" "k" 100))) "k" 200 = .ok "u" :=
  ((generateToken_spec "u" "k" 100).2.2.2 200).mpr (by decide)

/-- C10: each of the five shipped book controller functions is a constant
function: whatever the request (path parameter, headers, body) and whatever
the store contents, it answers the fixed placeholder text naming the handler
and returns the store unchanged. -/
theorem starter_controllers_placeholder (req : Request) (db : Db) :
    Starter.getAllBooks req db = (⟨200, .text "getAllBooks"⟩, db) ∧
    Starter.getBookById req db = (⟨200, .text "getBookById"⟩, db) ∧
    Starter.createBook req db = (⟨200, .text "createBook"⟩, db) ∧
    Starter.updateBook req db = (⟨200, .text "updateBook"⟩, db) ∧
    Starter.deleteBook req db = (⟨200, .text "deleteBook"⟩, db) :=
  ⟨rfl, rfl, rfl, rfl, rfl⟩

end BookApi
